import Mathlib

/-!
Shallow embedding of the core inspection machinery of `nwbinspector`
(src/nwbinspector/nwbinspector.py): the check configurator
(`configure_checks`), the dispatch engine (`run_checks`) and the
per-file driver (`inspect_nwb`), together with the data model they
operate on.  Python exceptions are modelled with `Except`, in-place
mutation of check descriptors by explicitly returning the final state
of the input list, and generators as the list of values they yield.
-/

namespace NWBInspector

/-- Modelled from the spec: the `Importance` enum lives in
`register_checks.py`, which is not part of the sources; the spec fixes
the ordering `BEST_PRACTICE_SUGGESTION < BEST_PRACTICE_VIOLATION <
CRITICAL` with two engine-reserved levels above every threshold
(`PYNWB_VALIDATION`, called `EXTERNAL_VALIDATION` in the spec, and
`ERROR`), and the member names are attested throughout the sources. -/
inductive Importance where
  | BEST_PRACTICE_SUGGESTION
  | BEST_PRACTICE_VIOLATION
  | CRITICAL
  | PYNWB_VALIDATION
  | ERROR
deriving DecidableEq, Repr

/-- Modelled from the spec: the numeric `.value` of each `Importance`
member, ascending with severity, used by the threshold comparison
`x.importance.value >= importance_threshold.value`. -/
def Importance.value : Importance → Nat
  | .BEST_PRACTICE_SUGGESTION => 0
  | .BEST_PRACTICE_VIOLATION => 1
  | .CRITICAL => 2
  | .PYNWB_VALIDATION => 3
  | .ERROR => 4

/-- The Python lookup `Importance[name]` by member name; `none` models the
`KeyError` raised for an unknown name. -/
def Importance.fromName : String → Option Importance
  | "BEST_PRACTICE_SUGGESTION" => some .BEST_PRACTICE_SUGGESTION
  | "BEST_PRACTICE_VIOLATION" => some .BEST_PRACTICE_VIOLATION
  | "CRITICAL" => some .CRITICAL
  | "PYNWB_VALIDATION" => some .PYNWB_VALIDATION
  | "ERROR" => some .ERROR
  | _ => none

/-- The `importance_threshold` argument of `configure_checks` as a
Python caller may pass it: either an actual member of `Importance`, or
any other value (a string, `None`, an int, ...), which the guard
`importance_threshold not in Importance` rejects. -/
inductive ThresholdArg where
  | mem (i : Importance)
  | nonMember
deriving DecidableEq, Repr

/-- A small nominal type hierarchy standing in for the pynwb neurodata
classes; `mro` lists the class itself followed by its ancestors, the
structure that the Python builtin `issubclass` consults. -/
inductive Ty where
  | NWBContainer
  | NWBDataInterface
  | TimeSeries
  | ElectricalSeries
  | DynamicTable
  | NWBFile
deriving DecidableEq, Repr

def Ty.mro : Ty → List Ty
  | .NWBContainer => [.NWBContainer]
  | .NWBDataInterface => [.NWBDataInterface, .NWBContainer]
  | .TimeSeries => [.TimeSeries, .NWBDataInterface, .NWBContainer]
  | .ElectricalSeries => [.ElectricalSeries, .TimeSeries, .NWBDataInterface, .NWBContainer]
  | .DynamicTable => [.DynamicTable, .NWBContainer]
  | .NWBFile => [.NWBFile, .NWBContainer]

/-- The Python builtin `issubclass(a, b)`: `b` occurs in the method resolution
order of `a` (so it holds for `a = b` and for every ancestor of `a`). -/
def issubclass (a b : Ty) : Bool := b ∈ a.mro

/-- The fields of `InspectorMessage` that `nwbinspector.py` reads or
writes; fields a construction site omits default to `none`, matching
the dataclass defaults. -/
structure InspectorMessage where
  message : String
  importance : Importance
  check_function_name : String
  location : Option String := none
  file : Option String := none
deriving DecidableEq, Repr

/-- An object stored in `nwbfile.objects`: its name and runtime type. -/
structure Obj where
  name : String
  ty : Ty
deriving DecidableEq, Repr

/-- What one call of a check function on one object does: raise an
exception (carrying the traceback text), return `None`, return a single
(non-iterable) `InspectorMessage`, or return an iterable of messages. -/
inductive CheckResult where
  | raises (tb : String)
  | retNone
  | single (m : InspectorMessage)
  | multiple (ms : List InspectorMessage)
deriving DecidableEq, Repr

/-- A registered check function: its `__name__`, its (mutable in
Python) `importance` attribute, its declared `neurodata_type`, and its
body. -/
structure CheckFunction where
  name : String
  importance : Importance
  neurodata_type : Ty
  fn : Obj → CheckResult

/-- Errors `configure_checks` can raise before any inspection work:
the `ValueError` for conflicting `select`/`ignore`, the error for a
threshold that is not a member of `Importance`, and the `KeyError`
from `Importance[importance_name]` on an unknown config key. -/
inductive ConfigError where
  | bothSelectIgnore
  | invalidThreshold
  | keyError (name : String)
deriving DecidableEq, Repr

/-- One pass of the inner config loop body over a single config entry
`(importance_name, func_names)` for a single check:
if the name of the check is listed, a `"SKIP"` key just moves on to the next
entry (`continue`), and any other key overwrites `check.importance`
with `Importance[importance_name]`. -/
def applyConfigEntry (c : CheckFunction) (entry : String × List String) :
    Except ConfigError CheckFunction :=
  if c.name ∈ entry.2 then
    if entry.1 = "SKIP" then Except.ok c
    else
      match Importance.fromName entry.1 with
      | some i => Except.ok { c with importance := i }
      | none => Except.error (ConfigError.keyError entry.1)
  else Except.ok c

/-- The full inner loop `for importance_name, func_names in
config.items(): ...` applied to one check, entry by entry in the
insertion order of the config dict. -/
def applyConfigCheck (c : CheckFunction) :
    List (String × List String) → Except ConfigError CheckFunction
  | [] => Except.ok c
  | e :: rest =>
      match applyConfigEntry c e with
      | Except.ok c' => applyConfigCheck c' rest
      | Except.error err => Except.error err

/-- The outer loop `for check in checks: ...; checks_out.append(check)`
of the config branch: every check is appended after the config entries
have been applied to it. -/
def configLoop (config : List (String × List String)) :
    List CheckFunction → Except ConfigError (List CheckFunction)
  | [] => Except.ok []
  | c :: rest =>
      match applyConfigCheck c config with
      | Except.ok c' =>
          match configLoop config rest with
          | Except.ok rest' => Except.ok (c' :: rest')
          | Except.error err => Except.error err
      | Except.error err => Except.error err

/-- Python truthiness of an optional list argument: `None` and `[]` are
falsy, a non-empty list is truthy. -/
def truthy : Option (List String) → Bool
  | none => false
  | some l => !l.isEmpty

/-- `configure_checks(checks, config, ignore, select,
importance_threshold)`.  The first component of the result is the final
state of the input check descriptors (the Python code mutates
`check.importance` in place and, without a config, returns the input
list itself); the second component is the returned, filtered list,
whose elements alias the first. -/
def configure_checks (checks : List CheckFunction)
    (config : Option (List (String × List String)))
    (ignore : Option (List String)) (select : Option (List String))
    (importance_threshold : ThresholdArg) :
    Except ConfigError (List CheckFunction × List CheckFunction) :=
  if ignore.isSome && select.isSome then Except.error ConfigError.bothSelectIgnore
  else
    match importance_threshold with
    | ThresholdArg.nonMember => Except.error ConfigError.invalidThreshold
    | ThresholdArg.mem thr =>
      match (match config with
             | some cfg => configLoop cfg checks
             | none => Except.ok checks) with
      | Except.error err => Except.error err
      | Except.ok checks_out =>
        let afterSelIgn :=
          if truthy select then
            checks_out.filter (fun x => x.name ∈ select.getD [])
          else if truthy ignore then
            checks_out.filter (fun x => x.name ∉ ignore.getD [])
          else checks_out
        Except.ok (checks_out, afterSelIgn.filter (fun x => thr.value ≤ x.importance.value))

/-- The `try`/`except` around one check invocation in `run_checks`: a
raised exception is replaced by a single synthesized `InspectorMessage`
at importance `ERROR`, carrying the traceback text and the `__name__`
of the check; any other outcome is passed through as the `output`. -/
inductive CheckOutput where
  | noneV
  | single (m : InspectorMessage)
  | multiple (ms : List InspectorMessage)
deriving DecidableEq, Repr

def safeCall (cf : CheckFunction) (obj : Obj) : CheckOutput :=
  match cf.fn obj with
  | CheckResult.raises tb =>
      CheckOutput.single
        { message := tb, importance := Importance.ERROR, check_function_name := cf.name }
  | CheckResult.retNone => CheckOutput.noneV
  | CheckResult.single m => CheckOutput.single m
  | CheckResult.multiple ms => CheckOutput.multiple ms

/-- The normalization step at the bottom of the `run_checks` loop:
`None` yields nothing, an iterable yields each element in order, and
anything else (a lone `InspectorMessage`) is yielded once. -/
def normalizeOutput : CheckOutput → List InspectorMessage
  | CheckOutput.noneV => []
  | CheckOutput.single m => [m]
  | CheckOutput.multiple ms => ms

/-- The inner loop of `run_checks` for one check function: iterate over
`nwbfile.objects.values()`, and on each object whose runtime type
satisfies `issubclass(type(obj), check_function.neurodata_type)` invoke
the check inside the safe-call boundary and yield its normalized
output. -/
def runChecksInner (cf : CheckFunction) : List Obj → List InspectorMessage
  | [] => []
  | o :: rest =>
      (if issubclass o.ty cf.neurodata_type then normalizeOutput (safeCall cf o) else [])
        ++ runChecksInner cf rest

/-- `run_checks(nwbfile, checks)`: the outer loop over the check list,
check-major as in the source. -/
def run_checks (objs : List Obj) : List CheckFunction → List InspectorMessage
  | [] => []
  | cf :: rest => runChecksInner cf objs ++ run_checks objs rest

/-- The (check name, object name) pairs on which `run_checks` actually
invokes a check body, in invocation order: the same two loops with the
same `issubclass` guard, recording the invocation instead of its
output. -/
def invocationsInner (cf : CheckFunction) : List Obj → List (String × String)
  | [] => []
  | o :: rest =>
      (if issubclass o.ty cf.neurodata_type then [(cf.name, o.name)] else [])
        ++ invocationsInner cf rest

def invocations (objs : List Obj) : List CheckFunction → List (String × String)
  | [] => []
  | cf :: rest => invocationsInner cf objs ++ invocations objs rest

/-- One entry of the list returned by `pynwb.validate(io=io)`. -/
structure ValidationError where
  reason : String
  name : String
  location : String
deriving DecidableEq, Repr

/-- The outcome of `io.read()`: an object graph, or a raised exception
carrying its traceback text and its `f"{type(ex)}: {str(ex)}"`
rendering. -/
inductive ReadResult where
  | ok (objects : List Obj)
  | raises (tb : String) (excRepr : String)
deriving Repr

/-- An uncaught Python fault escaping `inspect_nwb` to its caller:
after the `except` branch yields its `ERROR` message, control falls
through to `run_checks(nwbfile, ...)` with the local `nwbfile` never
assigned, raising `UnboundLocalError`. -/
inductive RuntimeFault where
  | unboundLocalNwbfile
deriving DecidableEq, Repr

/-- `inspect_nwb` from the `pynwb.validate` call onward (the check list
is the already-configured `checks`).  The result is the list of
messages the generator yields before terminating, paired with the
uncaught fault, if any, that it then raises. -/
def inspect_nwb (validationErrors : List ValidationError) (readResult : ReadResult)
    (checks : List CheckFunction) (file_name : String) (nwbfile_path : String) :
    List InspectorMessage × Option RuntimeFault :=
  let valMsgs := validationErrors.map fun e =>
    { message := e.reason, importance := Importance.PYNWB_VALIDATION,
      check_function_name := e.name, location := some e.location,
      file := some file_name : InspectorMessage }
  match readResult with
  | ReadResult.ok objs =>
      (valMsgs ++ (run_checks objs checks).map (fun m => { m with file := some nwbfile_path }),
        none)
  | ReadResult.raises tb excRepr =>
      (valMsgs ++
        [{ message := tb, importance := Importance.ERROR, check_function_name := excRepr }],
        some RuntimeFault.unboundLocalNwbfile)

/-! Concrete fixtures: a file-level object, a `TimeSeries` object, a
check that always raises, a check that returns a single finding, and a
check targeting `TimeSeries`, mirroring the shapes used in the test
suite of the repository. -/

def objFile : Obj := { name := "root", ty := Ty.NWBFile }

def objTs : Obj := { name := "test_time_series_1", ty := Ty.TimeSeries }

def msgB : InspectorMessage :=
  { message := "Experimenter is missing.",
    importance := Importance.BEST_PRACTICE_SUGGESTION,
    check_function_name := "check_experimenter" }

def checkA : CheckFunction :=
  { name := "check_session_start_time_future_date",
    importance := Importance.CRITICAL,
    neurodata_type := Ty.NWBFile,
    fn := fun _ => CheckResult.raises "Traceback (most recent call last): ZeroDivisionError" }

def checkB : CheckFunction :=
  { name := "check_experimenter",
    importance := Importance.BEST_PRACTICE_SUGGESTION,
    neurodata_type := Ty.NWBFile,
    fn := fun _ => CheckResult.single msgB }

def checkTs : CheckFunction :=
  { name := "check_dataset_compression",
    importance := Importance.BEST_PRACTICE_VIOLATION,
    neurodata_type := Ty.TimeSeries,
    fn := fun _ => CheckResult.retNone }

theorem filterStages_sublist (l : List CheckFunction) (sel ig : Option (List String))
    (thr : Importance) :
    ((if truthy sel then l.filter (fun x => x.name ∈ sel.getD [])
      else if truthy ig then l.filter (fun x => x.name ∉ ig.getD [])
      else l).filter (fun x => thr.value ≤ x.importance.value)).Sublist l := by
  apply List.Sublist.trans (List.filter_sublist _)
  split_ifs
  · exact List.filter_sublist l
  · exact List.filter_sublist l
  · exact List.Sublist.refl l

theorem applyConfigEntry_shape (c : CheckFunction) (e : String × List String)
    (c' : CheckFunction) (h : applyConfigEntry c e = Except.ok c') :
    c'.name = c.name ∧ c'.neurodata_type = c.neurodata_type ∧ c'.fn = c.fn := by
  unfold applyConfigEntry at h
  split_ifs at h
  · exact Except.ok.inj h ▸ ⟨rfl, rfl, rfl⟩
  · cases hn : Importance.fromName e.1 with
    | some i => rw [hn] at h; exact Except.ok.inj h ▸ ⟨rfl, rfl, rfl⟩
    | none => rw [hn] at h; exact absurd h (by simp)
  · exact Except.ok.inj h ▸ ⟨rfl, rfl, rfl⟩

theorem applyConfigCheck_shape (cfg : List (String × List String)) :
    ∀ (c c' : CheckFunction), applyConfigCheck c cfg = Except.ok c' →
    c'.name = c.name ∧ c'.neurodata_type = c.neurodata_type ∧ c'.fn = c.fn := by
  induction cfg with
  | nil => intro c c' h; exact Except.ok.inj h ▸ ⟨rfl, rfl, rfl⟩
  | cons e rest ih =>
    intro c c' h
    unfold applyConfigCheck at h
    cases he : applyConfigEntry c e with
    | ok cm =>
      rw [he] at h
      obtain ⟨h1, h2, h3⟩ := applyConfigEntry_shape c e cm he
      obtain ⟨g1, g2, g3⟩ := ih cm c' h
      exact ⟨g1.trans h1, g2.trans h2, g3.trans h3⟩
    | error err => rw [he] at h; exact absurd h (by simp)

theorem configLoop_shape (cfg : List (String × List String)) :
    ∀ (checks l : List CheckFunction), configLoop cfg checks = Except.ok l →
    l.map (fun c => (c.name, c.neurodata_type, c.fn))
      = checks.map (fun c => (c.name, c.neurodata_type, c.fn)) := by
  intro checks
  induction checks with
  | nil => intro l h; cases Except.ok.inj h; rfl
  | cons c rest ih =>
    intro l h
    unfold configLoop at h
    cases hc : applyConfigCheck c cfg with
    | ok c' =>
      rw [hc] at h
      cases hr : configLoop cfg rest with
      | ok rest' =>
        rw [hr] at h
        cases Except.ok.inj h
        obtain ⟨h1, h2, h3⟩ := applyConfigCheck_shape cfg c c' hc
        simp [h1, h2, h3, ih rest' hr]
      | error err => rw [hr] at h; exact absurd h (by simp)
    | error err => rw [hc] at h; exact absurd h (by simp)

/-- C6: for every valid combination of config, select, ignore and
importance_threshold arguments, the list `configure_checks` returns is
an order-preserving subsequence (a `Sublist`) of the (final state of
the) input checks list: no check not in the input, no duplicates
beyond those in the input, and surviving checks keep their relative
order. -/
theorem claim_C6 (checks : List CheckFunction) (cfg : Option (List (String × List String)))
    (ig sel : Option (List String)) (th : ThresholdArg)
    (pr : List CheckFunction × List CheckFunction)
    (h : configure_checks checks cfg ig sel th = Except.ok pr) :
    pr.2.Sublist pr.1 := by
  unfold configure_checks at h
  cases hgi : (ig.isSome && sel.isSome) with
  | true => rw [hgi] at h; simp at h
  | false =>
    rw [hgi] at h
    simp only [Bool.false_eq_true, if_false] at h
    cases th with
    | nonMember => simp at h
    | mem thr =>
      cases hco : (match cfg with
                   | some c => configLoop c checks
                   | none => Except.ok checks) with
      | error e => rw [hco] at h; simp at h
      | ok l =>
        rw [hco] at h
        simp only [Except.ok.injEq] at h
        subst h
        exact filterStages_sublist l sel ig thr

/-- C6 witness: `checkB` (importance suggestion) is filtered away by a
`CRITICAL` threshold, and the empty output is a sublist of the input. -/
theorem claim_C6_witness :
    List.Sublist ([] : List CheckFunction) [checkB] :=
  claim_C6 [checkB] none none none (ThresholdArg.mem Importance.CRITICAL) ([checkB], []) rfl

/-- C7: for every pair of non-`None` `select` and `ignore` arguments,
including empty lists, `configure_checks` raises the mutual-exclusion
`ValueError` before performing any filtering; no rule set is
produced. -/
theorem claim_C7 (checks : List CheckFunction) (cfg : Option (List (String × List String)))
    (th : ThresholdArg) (ig sel : List String) :
    configure_checks checks cfg (some ig) (some sel) th
      = Except.error ConfigError.bothSelectIgnore := by
  unfold configure_checks
  simp

/-- C5 counterexample: the claim says the engine-reserved `ERROR`
level is rejected as a threshold, but `configure_checks` accepts it
(the guard only tests membership in `Importance`, and `ERROR` is a
member): the call returns an ok result, filtering out every ordinary
check, instead of raising a configuration error. -/
theorem claim_C5_counterexample :
    configure_checks [checkB] none none none (ThresholdArg.mem Importance.ERROR)
      = Except.ok ([checkB], []) := rfl

/-- C5 amended: `configure_checks` rejects exactly those
`importance_threshold` values that are not members of the `Importance`
enum; every member, including the engine-reserved `ERROR` and
`PYNWB_VALIDATION` levels, is accepted as a threshold. -/
theorem claim_C5 (checks : List CheckFunction) (ig sel : Option (List String))
    (h : (ig.isSome && sel.isSome) = false) :
    (∀ i : Importance, ∃ pr, configure_checks checks none ig sel (ThresholdArg.mem i)
        = Except.ok pr) ∧
    configure_checks checks none ig sel ThresholdArg.nonMember
      = Except.error ConfigError.invalidThreshold := by
  constructor
  · intro i
    unfold configure_checks
    rw [h]
    simp only [Bool.false_eq_true, if_false]
    exact ⟨_, rfl⟩
  · unfold configure_checks
    rw [h]
    simp

/-- C5 witness: with one registered check and no other options, the
`ERROR` member is accepted and a non-member value is rejected. -/
theorem claim_C5_witness :
    (∃ pr, configure_checks [checkB] none none none (ThresholdArg.mem Importance.ERROR)
        = Except.ok pr) ∧
    configure_checks [checkB] none none none ThresholdArg.nonMember
      = Except.error ConfigError.invalidThreshold :=
  ⟨(claim_C5 [checkB] none none rfl).1 Importance.ERROR, (claim_C5 [checkB] none none rfl).2⟩

/-- C10 counterexample: the claim passes `select=[]` together with
`ignore=[]`; both are non-`None`, so the mutual-exclusion guard
(`is not None`) raises the `ValueError` instead of returning the
unfiltered checks the claim expects. -/
theorem claim_C10_counterexample :
    configure_checks [checkB] none (some []) (some [])
        (ThresholdArg.mem Importance.BEST_PRACTICE_SUGGESTION)
      = Except.error ConfigError.bothSelectIgnore := rfl

/-- C10 amended: an empty `select` (with `ignore` absent), or an empty
`ignore` (with `select` absent), is falsy and filters nothing: the
output equals that of the same call without `select`/`ignore`.
Supplying both as empty lists instead trips the mutual-exclusion
guard. -/
theorem claim_C10 (checks : List CheckFunction)
    (cfg : Option (List (String × List String))) (th : ThresholdArg) :
    configure_checks checks cfg none (some []) th = configure_checks checks cfg none none th ∧
    configure_checks checks cfg (some []) none th = configure_checks checks cfg none none th := by
  constructor <;> (unfold configure_checks; simp [truthy])

/-- C3, evaluation at the failing input: a check whose name appears
under the `SKIP` config key is still present in the output of
`configure_checks` — the `continue` in the source skips only the inner
loop over config entries, and the check is appended regardless — so
the claim that it is absent contradicts the code. -/
theorem claim_C3_eval :
    configure_checks [checkB] (some [("SKIP", ["check_experimenter"])]) none none
        (ThresholdArg.mem Importance.BEST_PRACTICE_SUGGESTION)
      = Except.ok ([checkB], [checkB]) := rfl

/-- C4 counterexample: a config relabeling `check_experimenter` to
`CRITICAL` changes the importance attribute of the input check
descriptor in place: the final state of the input list differs from
the original, refuting the claim that descriptors are identical before
and after the call. -/
theorem claim_C4_counterexample :
    configure_checks [checkB] (some [("CRITICAL", ["check_experimenter"])]) none none
        (ThresholdArg.mem Importance.BEST_PRACTICE_SUGGESTION)
      = Except.ok ([{ checkB with importance := Importance.CRITICAL }],
                   [{ checkB with importance := Importance.CRITICAL }]) ∧
    ({ checkB with importance := Importance.CRITICAL } : CheckFunction).importance
      ≠ checkB.importance :=
  ⟨rfl, by decide⟩

/-- C4 amended: `configure_checks` leaves the name, target type and
body of every input descriptor unchanged and keeps the list length and
order; only the importance attribute may be overwritten in place by a
config entry, and with `config=None` the input descriptors are not
mutated at all. -/
theorem claim_C4 (checks : List CheckFunction) (cfg : Option (List (String × List String)))
    (ig sel : Option (List String)) (th : ThresholdArg)
    (pr : List CheckFunction × List CheckFunction)
    (h : configure_checks checks cfg ig sel th = Except.ok pr) :
    pr.1.map (fun c => (c.name, c.neurodata_type, c.fn))
      = checks.map (fun c => (c.name, c.neurodata_type, c.fn)) ∧
    (cfg = none → pr.1 = checks) := by
  unfold configure_checks at h
  cases hgi : (ig.isSome && sel.isSome) with
  | true => rw [hgi] at h; simp at h
  | false =>
    rw [hgi] at h
    simp only [Bool.false_eq_true, if_false] at h
    cases th with
    | nonMember => simp at h
    | mem thr =>
      cases cfg with
      | none =>
        dsimp only at h
        simp only [Except.ok.injEq] at h
        subst h
        exact ⟨rfl, fun _ => rfl⟩
      | some c =>
        dsimp only at h
        cases hco : configLoop c checks with
        | error e => rw [hco] at h; simp at h
        | ok l =>
          rw [hco] at h
          simp only [Except.ok.injEq] at h
          subst h
          exact ⟨configLoop_shape c checks l hco, by intro hh; cases hh⟩

/-- C4 witness: the relabeled descriptor list agrees with the input on
every field except importance. -/
theorem claim_C4_witness :
    [({ checkB with importance := Importance.CRITICAL } : CheckFunction)].map
        (fun c => (c.name, c.neurodata_type, c.fn))
      = [checkB].map (fun c => (c.name, c.neurodata_type, c.fn)) :=
  (claim_C4 [checkB] (some [("CRITICAL", ["check_experimenter"])]) none none
    (ThresholdArg.mem Importance.BEST_PRACTICE_SUGGESTION)
    ([{ checkB with importance := Importance.CRITICAL }],
     [{ checkB with importance := Importance.CRITICAL }]) rfl).1

theorem run_checks_append (objs : List Obj) (l1 l2 : List CheckFunction) :
    run_checks objs (l1 ++ l2) = run_checks objs l1 ++ run_checks objs l2 := by
  induction l1 with
  | nil => rfl
  | cons cf rest ih => simp [run_checks, ih, List.append_assoc]

theorem runChecksInner_append (cf : CheckFunction) (o1 o2 : List Obj) :
    runChecksInner cf (o1 ++ o2) = runChecksInner cf o1 ++ runChecksInner cf o2 := by
  induction o1 with
  | nil => rfl
  | cons o rest ih => simp [runChecksInner, ih, List.append_assoc]

/-- C1: if a check function raises on a qualifying object,
`run_checks` yields exactly one message at importance `ERROR` whose
`check_function_name` is that check name for that (rule, object) pair;
no exception propagates (`run_checks` is a total function into a
message list, decomposing over the check list), and every remaining
(rule, object) pair before and after the failing one is still
processed and its findings still yielded in place. -/
theorem claim_C1 (objs : List Obj) (pre post : List CheckFunction) (cf : CheckFunction)
    (o : Obj) (tb : String)
    (hq : issubclass o.ty cf.neurodata_type = true)
    (hr : cf.fn o = CheckResult.raises tb) :
    run_checks objs (pre ++ cf :: post)
      = run_checks objs pre ++ runChecksInner cf objs ++ run_checks objs post ∧
    runChecksInner cf [o]
      = [{ message := tb, importance := Importance.ERROR,
           check_function_name := cf.name }] ∧
    (∀ opre opost : List Obj, runChecksInner cf (opre ++ o :: opost)
      = runChecksInner cf opre
        ++ [{ message := tb, importance := Importance.ERROR,
              check_function_name := cf.name }]
        ++ runChecksInner cf opost) := by
  refine ⟨?_, ?_, ?_⟩
  · simp [run_checks_append, run_checks, List.append_assoc]
  · simp [runChecksInner, hq, safeCall, hr, normalizeOutput]
  · intro opre opost
    rw [runChecksInner_append]
    simp [runChecksInner, hq, safeCall, hr, normalizeOutput]

/-- C1 witness, the example of the spec: two rules over one object,
where rule A always raises and rule B always returns one finding,
produce exactly the `ERROR` message naming rule A followed by the
ordinary message of rule B. -/
theorem claim_C1_witness :
    run_checks [objFile] ([] ++ checkA :: [checkB])
      = run_checks [objFile] [] ++ runChecksInner checkA [objFile]
        ++ run_checks [objFile] [checkB] ∧
    runChecksInner checkA [objFile]
      = [{ message := "Traceback (most recent call last): ZeroDivisionError",
           importance := Importance.ERROR,
           check_function_name := "check_session_start_time_future_date" }] :=
  ⟨(claim_C1 [objFile] [] [checkB] checkA objFile
      "Traceback (most recent call last): ZeroDivisionError" rfl rfl).1,
   (claim_C1 [objFile] [] [checkB] checkA objFile
      "Traceback (most recent call last): ZeroDivisionError" rfl rfl).2.1⟩

/-- C9: for every (check, object) invocation, `run_checks` normalizes
the polymorphic result: `None` yields zero messages, a single finding
yields exactly that message, and a sequence of findings yields exactly
its elements in the order the check produced them. -/
theorem claim_C9 (cf : CheckFunction) (o : Obj) (m : InspectorMessage)
    (ms : List InspectorMessage)
    (hq : issubclass o.ty cf.neurodata_type = true) :
    (cf.fn o = CheckResult.retNone → runChecksInner cf [o] = []) ∧
    (cf.fn o = CheckResult.single m → runChecksInner cf [o] = [m]) ∧
    (cf.fn o = CheckResult.multiple ms → runChecksInner cf [o] = ms) := by
  refine ⟨fun hr => ?_, fun hr => ?_, fun hr => ?_⟩ <;>
    simp [runChecksInner, hq, safeCall, hr, normalizeOutput]

/-- C9 witness: `checkB` returns the single finding `msgB` on the root
object, and the engine yields exactly `[msgB]`. -/
theorem claim_C9_witness :
    runChecksInner checkB [objFile] = [msgB] :=
  (claim_C9 checkB objFile msgB [] rfl).2.1 rfl

/-- C2, evaluation at the failing input: when `io.read()` raises,
`inspect_nwb` yields exactly one `ERROR` message carrying the failure
description and dispatches no checks (the check list is irrelevant to
the output), but then falls through to `run_checks(nwbfile, ...)` with
the local `nwbfile` never assigned, so an uncaught `UnboundLocalError`
reaches the caller — contradicting the claim that no uncaught fault
escapes. -/
theorem claim_C2_eval (checks : List CheckFunction) (tb excRepr fn np : String) :
    inspect_nwb [] (ReadResult.raises tb excRepr) checks fn np
      = ([{ message := tb, importance := Importance.ERROR,
            check_function_name := excRepr }],
         some RuntimeFault.unboundLocalNwbfile) := rfl

theorem invocationsInner_mem (cf : CheckFunction) (objs : List Obj) (p : String × String) :
    p ∈ invocationsInner cf objs
      ↔ ∃ o ∈ objs, p = (cf.name, o.name) ∧ issubclass o.ty cf.neurodata_type = true := by
  induction objs with
  | nil => simp [invocationsInner]
  | cons o rest ih =>
    by_cases hq : issubclass o.ty cf.neurodata_type = true <;>
      simp only [invocationsInner, hq, if_true, if_false, List.mem_append,
        List.mem_singleton, List.nil_append, ih, List.mem_cons] <;>
      aesop

theorem invocations_mem (objs : List Obj) (cs : List CheckFunction) (p : String × String) :
    p ∈ invocations objs cs
      ↔ ∃ cf ∈ cs, ∃ o ∈ objs, p = (cf.name, o.name)
          ∧ issubclass o.ty cf.neurodata_type = true := by
  induction cs with
  | nil => simp [invocations]
  | cons cf rest ih =>
    simp only [invocations, List.mem_append, invocationsInner_mem, ih, List.mem_cons]
    aesop

theorem invocationsInner_snd_sublist (cf : CheckFunction) (objs : List Obj) :
    ((invocationsInner cf objs).map Prod.snd).Sublist (objs.map Obj.name) := by
  induction objs with
  | nil => simp [invocationsInner]
  | cons o rest ih =>
    by_cases hq : issubclass o.ty cf.neurodata_type = true
    · simpa [invocationsInner, hq] using ih.cons₂ o.name
    · simpa [invocationsInner, hq] using ih.cons o.name

theorem invocationsInner_nodup (cf : CheckFunction) (objs : List Obj)
    (ho : (objs.map Obj.name).Nodup) : (invocationsInner cf objs).Nodup :=
  List.Nodup.of_map Prod.snd (List.Nodup.sublist (invocationsInner_snd_sublist cf objs) ho)

theorem invocations_nodup (objs : List Obj) (cs : List CheckFunction)
    (hc : (cs.map CheckFunction.name).Nodup) (ho : (objs.map Obj.name).Nodup) :
    (invocations objs cs).Nodup := by
  induction cs with
  | nil => simp [invocations]
  | cons cf rest ih =>
    simp only [List.map_cons, List.nodup_cons] at hc
    refine List.Nodup.append (invocationsInner_nodup cf objs ho) (ih hc.2) ?_
    intro p hp hp'
    rw [invocationsInner_mem] at hp
    rw [invocations_mem] at hp'
    obtain ⟨o, _, rfl, _⟩ := hp
    obtain ⟨cf', hcf', o', _, heq, _⟩ := hp'
    apply hc.1
    rw [List.mem_map]
    exact ⟨cf', hcf', (congrArg Prod.fst heq).symm⟩

/-- C8: `run_checks` invokes an active check on an object exactly when
the runtime type of the object equals or refines the declared
`neurodata_type` of the check: every qualifying (check, object) pair
appears in the invocation list (and, names being distinct, exactly
once), and every invocation arises from a qualifying pair. -/
theorem claim_C8 (objs : List Obj) (cs : List CheckFunction)
    (hc : (cs.map CheckFunction.name).Nodup) (ho : (objs.map Obj.name).Nodup) :
    (∀ cf ∈ cs, ∀ o ∈ objs, issubclass o.ty cf.neurodata_type = true →
        (cf.name, o.name) ∈ invocations objs cs) ∧
    (∀ p ∈ invocations objs cs, ∃ cf ∈ cs, ∃ o ∈ objs,
        p = (cf.name, o.name) ∧ issubclass o.ty cf.neurodata_type = true) ∧
    (invocations objs cs).Nodup := by
  refine ⟨?_, ?_, invocations_nodup objs cs hc ho⟩
  · intro cf hcf o ho' hs
    rw [invocations_mem]
    exact ⟨cf, hcf, o, ho', rfl, hs⟩
  · intro p hp
    rw [invocations_mem] at hp
    exact hp

/-- C8 witness: over a file object and a time-series object with the
raising file check and the time-series check, the (time-series check,
time-series object) pair is invoked, and no pair is invoked twice. -/
theorem claim_C8_witness :
    ((checkTs.name, objTs.name) ∈ invocations [objFile, objTs] [checkA, checkTs]) ∧
    (invocations [objFile, objTs] [checkA, checkTs]).Nodup := by
  have h := claim_C8 [objFile, objTs] [checkA, checkTs] (by decide) (by decide)
  exact ⟨h.1 checkTs (by simp) objTs (by simp) rfl, h.2.2⟩

end NWBInspector
